import Mathlib

/-!
Verification development for the sentinel library (`sentinels/sentinels.py`).

The library provides a single class, `Sentinel`, whose `__new__` acts as a
lookup-or-create factory over a process-wide registry:

* `Sentinel.__new__(cls, name, repr=None, module_name=None, truthy=None)`
  coerces `name` with `str`, derives the repr when `repr` is falsy, infers
  `module_name` from the call stack when it is falsy, builds the registry key
  string, returns the registered instance on a cache hit, and otherwise
  constructs a new instance and inserts it with `dict.setdefault` under a lock.
* `__bool__` returns the stored truthiness or raises `ValueError`.
* `__repr__` returns the stored repr string.
* `__reduce__` returns the class together with the stored
  `(name, repr, module_name)` triple, so that copying and unpickling re-invoke
  the factory.

The shallow embedding below models the process as an explicit state: the list
of all `Sentinel` objects ever constructed (a sentinel object is identified by
its index in that list, playing the role of the object identity `id(obj)`),
together with the registry mapping key strings to object identities.  All
definitions are translated directly from the source; `_sys.intern` is
semantically the identity on strings and is therefore dropped.
-/

/-- The identity of a concrete sentinel kind (class): in the source the
registry key uses `cls.__module__` and `cls.__qualname__` (lines 67-71). -/
structure Kind where
  module : String
  qualname : String
deriving DecidableEq

/-- The kind of the base class `Sentinel`, defined at top level of the module
`sentinels`. -/
def sentinelKind : Kind := ⟨"sentinels", "Sentinel"⟩

/-- A Python stack frame, reduced to the part the source reads:
`f_globals` (only the binding of `__name__` is ever consulted). -/
structure Frame where
  f_globals : List (String × String)

/-- The ambient execution context of one factory call: what
`sys._getframe(k)` would return (with `Option.none` modelling the
`AttributeError`/`ValueError` raised when frame introspection is
unavailable), and the frame reached by the `exc_info` based fallback
(`sys.exc_info()[2].tb_frame.f_back.f_back`), again with `Option.none`
modelling failure. -/
structure Env where
  getframe : Nat → Option Frame
  excFrame : Option Frame

/-- An environment in which no stack introspection is available at all. -/
def trivialEnv : Env := ⟨fun _ => Option.none, Option.none⟩

/-- Python `dict.get` on a small association list (used for `f_globals.get`
and for the registry).  Keys in the modelled dicts are unique, so the
association-list order is irrelevant. -/
def dictGet {β : Type} : List (String × β) → String → Option β
  | [], _ => Option.none
  | (k, v) :: rest, key => if key = k then some v else dictGet rest key

/-- `_get_parent_frame` (source lines 116-136): try `sys._getframe(2)`
(frame 0 is `_get_parent_frame` itself, frame 1 is `Sentinel.__new__`,
frame 2 is whoever invoked `Sentinel(...)`); if that raises, fall back to
walking the traceback of a freshly raised exception; if that also fails,
return `None`. -/
def getParentFrame (env : Env) : Option Frame :=
  match env.getframe 2 with
  | some f => some f
  | Option.none => env.excFrame

/-- The module name inferred from the call stack (source lines 60-65):
`parent_frame.f_globals.get("__name__", "__main__")` when a parent frame was
found, else the `__name__` of the library module itself, which is `"sentinels"`. -/
def inferredModuleName (env : Env) : String :=
  match getParentFrame env with
  | some f => (dictGet f.f_globals "__name__").getD "__main__"
  | Option.none => "sentinels"

/-- Resolution of the `module_name` parameter (source lines 59-65):
`if not module_name:` engages inference, so both `None` and the empty
string are replaced by the inferred module name. -/
def resolveModuleName (module_name : Option String) (env : Env) : String :=
  match module_name with
  | some s => if s = "" then inferredModuleName env else s
  | Option.none => inferredModuleName env

/-- The `name` argument of the factory.  The source applies `str(name)`
first (line 57); we restrict the modelled argument values to ones whose
`str` form does not depend on the object store (strings and integers),
which is all the claims need. -/
inductive NameArg where
  | str (s : String)
  | int (n : Int)
deriving DecidableEq

/-- Python `str` on the modelled name arguments: identity on strings, the
decimal form on integers. -/
def strOf : NameArg → String
  | NameArg.str s => s
  | NameArg.int n => toString n

/-- Python `name.split(".")[-1]`: the suffix of `name` after its last dot
(the whole string when there is no dot, empty when the string ends in a
dot), computed by a structural fold over the characters. -/
def lastSegment (s : String) : String :=
  String.mk (s.data.foldl (fun acc c => if c = '.' then [] else acc ++ [c]) [])

/-- Resolution of the `repr` parameter (source line 58):
`repr = str(repr) if repr else f"<...>"` where the fallback is
`"<"` + last dotted segment of the (already coerced) name + `">"`.
A supplied empty string is falsy and hence also replaced by the default. -/
def resolveRepr (reprArg : Option String) (name : String) : String :=
  match reprArg with
  | some s => if s = "" then "<" ++ lastSegment name ++ ">" else s
  | Option.none => "<" ++ lastSegment name ++ ">"

/-- The registry key (source lines 69-71):
`f"..."` joining the class module, class qualname, module name and name
with `"-"`. -/
def registryKey (cls : Kind) (module_name name : String) : String :=
  cls.module ++ "-" ++ cls.qualname ++ "-" ++ module_name ++ "-" ++ name

/-- A `Sentinel` object: the four instance attributes assigned in
`__new__` (source lines 76-79), together with the concrete class the
object was created through (`self.__class__`, used by `__reduce__`). -/
structure Sentinel where
  cls : Kind
  _name : String
  _repr : String
  _module_name : String
  _truthy : Option Bool
deriving DecidableEq

/-- A placeholder `Sentinel` record used only as the default of
`List.getLastD`; every theorem that uses it does so at a position proved
to hold an actual instance. -/
def dummySentinel : Sentinel := ⟨⟨"", ""⟩, "", "", "", Option.none⟩

/-- One invocation of the factory `Sentinel.__new__`: the concrete class,
the four arguments, and the stack context at the call site. -/
structure Call where
  cls : Kind
  name : NameArg
  repr : Option String
  module_name : Option String
  truthy : Option Bool
  env : Env

/-- The registry key computed by a call (source lines 57-71). -/
def callKey (c : Call) : String :=
  registryKey c.cls (resolveModuleName c.module_name c.env) (strOf c.name)

/-- The instance constructed on a cache miss (source lines 75-79): the
coerced name, the resolved repr and module name, and the given truthiness. -/
def mkSentinel (c : Call) : Sentinel :=
  { cls := c.cls
    _name := strOf c.name
    _repr := resolveRepr c.repr (strOf c.name)
    _module_name := resolveModuleName c.module_name c.env
    _truthy := c.truthy }

/-- The process state: every `Sentinel` object ever constructed (an
object identity is an index into this list), and the registry
`_registry : dict[str, Sentinel]` mapping key strings to object
identities. -/
structure ProcState where
  instances : List Sentinel
  registry : List (String × Nat)
deriving DecidableEq

/-- The state at process start: no instances, empty registry
(source line 104: `_registry = {}`). -/
def initState : ProcState := ⟨[], []⟩

/-- `Sentinel.__new__` (source lines 50-81).  The unlocked fast-path read
`_registry.get(registry_key, None)` comes first; on a miss the candidate
object is constructed and then `_registry.setdefault(registry_key, sentinel)`
runs under `_lock`.  In this sequential model the state cannot change
between the two lookups, so the inner `setdefault` re-check always
re-confirms the miss; it is kept to mirror the source.  The candidate is
appended to the object store in either branch because the Python object is
constructed before `setdefault` runs. -/
def Sentinel.new (σ : ProcState) (c : Call) : ProcState × Nat :=
  let key := callKey c
  match dictGet σ.registry key with
  | some id => (σ, id)
  | Option.none =>
    let s := mkSentinel c
    let id := σ.instances.length
    match dictGet σ.registry key with
    | some id2 => (⟨σ.instances ++ [s], σ.registry⟩, id2)
    | Option.none => (⟨σ.instances ++ [s], (key, id) :: σ.registry⟩, id)

/-- A sequence of factory calls, executed left to right. -/
def runCalls (σ : ProcState) (cs : List Call) : ProcState :=
  cs.foldl (fun s c => (Sentinel.new s c).1) σ

/-- `Sentinel.__bool__` (source lines 83-87): the stored truthiness, or a
`ValueError` whose message names the sentinel. -/
def Sentinel.bool (s : Sentinel) : Except String Bool :=
  match s._truthy with
  | Option.none => Except.error (s._name ++ " is ambiguous.")
  | some b => Except.ok b

/-- `Sentinel.__repr__` (source lines 89-90): the stored repr string. -/
def Sentinel.repr (s : Sentinel) : String :=
  s._repr

/-- `Sentinel.__reduce__` (source lines 92-100) followed by the
reconstruction step of copying/unpickling: the recipe is the pair of
`self.__class__` and the stored `(name, repr, module_name)` arguments —
`truthy` is deliberately absent, so the replayed call leaves it at its
default `None`.  The replay happens in whatever stack context `env` the
reconstructing code runs in. -/
def Sentinel.reduce (s : Sentinel) (env : Env) : Call :=
  { cls := s.cls
    name := NameArg.str s._name
    repr := some s._repr
    module_name := some s._module_name
    truthy := Option.none
    env := env }

/-!
A small universe of Python values, for the equality and hashing contract.
The class body (source lines 29-100) defines neither `__eq__` nor
`__hash__`, so instances inherit `object` semantics: `==` is object
identity and `hash` is derived from the object identity.
-/

/-- Python values a sentinel may be compared against: `None`, `Ellipsis`,
strings, integers, and sentinel objects (identified by object identity). -/
inductive PyValue where
  | none
  | ellipsis
  | str (s : String)
  | int (n : Int)
  | sentinel (id : Nat)
deriving DecidableEq

/-- Python `==` on the modelled values.  A sentinel equals only the very
same object (default `object.__eq__`, since the class defines no
`__eq__`); the remaining values compare structurally, as `==` does for
`None`, `Ellipsis`, `str` and `int`. -/
def pyEq : PyValue → PyValue → Bool
  | PyValue.sentinel i, PyValue.sentinel j => i == j
  | PyValue.sentinel _, _ => false
  | _, PyValue.sentinel _ => false
  | a, b => a == b

/-- Python `hash` on the modelled values.  The hash of a sentinel is derived
from its object identity (default `object.__hash__`, since the class
defines no `__hash__`).  The precise hash of the other value forms is
irrelevant to the claims; any equality-respecting assignment serves. -/
def pyHash : PyValue → Nat
  | PyValue.sentinel i => i
  | PyValue.str s => s.length + 2
  | PyValue.int n => n.natAbs
  | PyValue.none => 0
  | PyValue.ellipsis => 1

/-- The key a stored instance would be registered under, computed from its
stored attributes exactly as `__new__` computes it from its arguments. -/
def attrsKey (s : Sentinel) : String :=
  registryKey s.cls s._module_name s._name

/-- The registry invariant: every registered identity points at a stored
instance whose attribute-derived key is its registry key, and every stored
instance is registered under its attribute-derived key. -/
def RegInv (σ : ProcState) : Prop :=
  (∀ k id, dictGet σ.registry k = some id →
    ∃ s, σ.instances[id]? = some s ∧ attrsKey s = k)
  ∧ (∀ id s, σ.instances[id]? = some s → dictGet σ.registry (attrsKey s) = some id)

/-!
An interleaving model of N threads concurrently executing `__new__` with
one shared key (source lines 72-81 and 103).  Per thread the body splits
into two atomic actions, matching the synchronisation in the source:

* the unlocked fast-path read `_registry.get(registry_key, None)`,
  after which a thread either finishes with the found identity or
  constructs a fresh candidate object;
* the authoritative check-then-insert `_registry.setdefault(...)`,
  executed while holding `_lock` and therefore a single atomic action,
  after which the thread finishes with whatever identity `setdefault`
  returned.

Arbitrary interleavings of these actions are allowed, so two threads can
both observe the key as absent and both reach the locked section with
distinct candidates; atomicity of the critical section then makes exactly
one insertion win.
-/

/-- The program counter of one thread running `__new__` for the shared
key: not yet started, past a failed fast-path read holding a candidate
object, or finished with a result. -/
inductive TState where
  | start
  | ready (cand : Nat)
  | done (res : Nat)
deriving DecidableEq

/-- The shared state of the concurrent execution: the registry entry for
the contended key, an allocator counter producing fresh candidate object
identities, and the per-thread states. -/
structure CState where
  entry : Option Nat
  counter : Nat
  threads : List TState
deriving DecidableEq

/-- One atomic action of one thread (see the module comment above). -/
inductive CStep : CState → CState → Prop where
  | fastHit (s : CState) (i v : Nat) :
      s.threads[i]? = some TState.start → s.entry = some v →
      CStep s ⟨s.entry, s.counter, s.threads.set i (TState.done v)⟩
  | fastMiss (s : CState) (i : Nat) :
      s.threads[i]? = some TState.start → s.entry = Option.none →
      CStep s ⟨Option.none, s.counter + 1, s.threads.set i (TState.ready s.counter)⟩
  | lockHit (s : CState) (i c v : Nat) :
      s.threads[i]? = some (TState.ready c) → s.entry = some v →
      CStep s ⟨s.entry, s.counter, s.threads.set i (TState.done v)⟩
  | lockMiss (s : CState) (i c : Nat) :
      s.threads[i]? = some (TState.ready c) → s.entry = Option.none →
      CStep s ⟨some c, s.counter, s.threads.set i (TState.done c)⟩

/-- The initial state: key unregistered, `n` threads about to call the
factory. -/
def initCState (n : Nat) : CState :=
  ⟨Option.none, 0, List.replicate n TState.start⟩

/-- Reachability by any interleaving of the `n` threads. -/
def CReach (n : Nat) (s : CState) : Prop :=
  Relation.ReflTransGen CStep (initCState n) s

/-- Every finished thread returned exactly the registered identity. -/
def doneOK (s : CState) : Prop :=
  ∀ (i r : Nat), s.threads[i]? = some (TState.done r) → s.entry = some r

/-!
Concrete calls and states used by the witness and counterexample
theorems below.
-/

/-- A call under namespace `"A"` creating the name `"B-C"`. -/
def c1a : Call :=
  { cls := sentinelKind, name := NameArg.str "B-C", repr := Option.none,
    module_name := some "A", truthy := Option.none, env := trivialEnv }

/-- A call under namespace `"A-B"` creating the name `"C"`: its registry
key string collides with the one of `c1a`. -/
def c1b : Call :=
  { cls := sentinelKind, name := NameArg.str "C", repr := Option.none,
    module_name := some "A-B", truthy := Option.none, env := trivialEnv }

/-- A stack context whose parent frame carries the empty string as its
`__name__` global. -/
def envEmptyName : Env := ⟨fun _ => some ⟨[("__name__", "")]⟩, Option.none⟩

/-- A stack context whose parent frame carries `"mod"` as its `__name__`
global (for example, the frame inside the unpickling machinery). -/
def envModName : Env := ⟨fun _ => some ⟨[("__name__", "mod")]⟩, Option.none⟩

/-- A call that lets namespace inference pick up the empty `__name__`. -/
def c2orig : Call :=
  { cls := sentinelKind, name := NameArg.str "X", repr := Option.none,
    module_name := Option.none, truthy := some true, env := envEmptyName }

/-- An ordinary creation call with an explicit non-empty namespace. -/
def c2plain : Call :=
  { cls := sentinelKind, name := NameArg.str "W", repr := Option.none,
    module_name := some "m", truthy := some false, env := trivialEnv }

/-- A creation call with truthiness `True`. -/
def c3call : Call :=
  { cls := sentinelKind, name := NameArg.str "A", repr := Option.none,
    module_name := some "m", truthy := some true, env := trivialEnv }

/-- A creation call for key `m`/`X` with no display and no truthiness. -/
def c4base : Call :=
  { cls := sentinelKind, name := NameArg.str "X", repr := Option.none,
    module_name := some "m", truthy := Option.none, env := trivialEnv }

/-- A second call for the same key as `c4base`, supplying a different
display and a different truthiness. -/
def c4hit : Call :=
  { cls := sentinelKind, name := NameArg.str "X", repr := some "other",
    module_name := some "m", truthy := some false, env := trivialEnv }

/-- A creation call passing the empty string as the display. -/
def c6empty : Call :=
  { cls := sentinelKind, name := NameArg.str "C", repr := some "",
    module_name := some "m", truthy := Option.none, env := trivialEnv }

/-- A creation call with the display omitted. -/
def c6plain : Call :=
  { cls := sentinelKind, name := NameArg.str "sent1", repr := Option.none,
    module_name := some "m", truthy := Option.none, env := trivialEnv }

/-- A call with no explicit namespace, made where stack introspection is
unavailable. -/
def c8call : Call :=
  { cls := sentinelKind, name := NameArg.str "N", repr := Option.none,
    module_name := Option.none, truthy := Option.none, env := trivialEnv }

/-- A creation call whose name argument is the integer `1`. -/
def c9int : Call :=
  { cls := sentinelKind, name := NameArg.int 1, repr := Option.none,
    module_name := some "m", truthy := Option.none, env := trivialEnv }

/-- A creation call whose name argument is the string `"1"`. -/
def c9str : Call :=
  { cls := sentinelKind, name := NameArg.str "1", repr := Option.none,
    module_name := some "m", truthy := Option.none, env := trivialEnv }

/-- The final state of a two-thread interleaving on one shared key:
thread 0 misses, constructs and registers candidate 0, thread 1 then hits
on its fast path; both return identity 0. -/
def cfinal : CState := ⟨some 0, 1, [TState.done 0, TState.done 0]⟩

/-!
Helper lemmas: unfolding equations for the factory, the registry
invariant, and its preservation along executions.
-/

theorem attrsKey_mkSentinel (c : Call) : attrsKey (mkSentinel c) = callKey c := rfl

@[simp] theorem dictGet_cons {β : Type} (k : String) (v : β)
    (rest : List (String × β)) (key : String) :
    dictGet ((k, v) :: rest) key = if key = k then some v else dictGet rest key := rfl

theorem Sentinel.new_hit {σ : ProcState} {c : Call} {id : Nat}
    (h : dictGet σ.registry (callKey c) = some id) : Sentinel.new σ c = (σ, id) := by
  unfold Sentinel.new
  simp [h]

theorem Sentinel.new_miss {σ : ProcState} {c : Call}
    (h : dictGet σ.registry (callKey c) = Option.none) :
    Sentinel.new σ c =
      (⟨σ.instances ++ [mkSentinel c], (callKey c, σ.instances.length) :: σ.registry⟩,
        σ.instances.length) := by
  unfold Sentinel.new
  simp [h]

theorem regInv_init : RegInv initState := by
  constructor
  · intro k id h
    simp [initState, dictGet] at h
  · intro id s h
    simp [initState] at h

theorem regInv_new {σ : ProcState} (hσ : RegInv σ) (c : Call) : RegInv (Sentinel.new σ c).1 := by
  cases hreg : dictGet σ.registry (callKey c) with
  | some id => rw [Sentinel.new_hit hreg]; exact hσ
  | none =>
    rw [Sentinel.new_miss hreg]
    constructor
    · intro k id h
      simp only [dictGet_cons] at h
      by_cases hk : k = callKey c
      · rw [if_pos hk] at h
        refine ⟨mkSentinel c, ?_, hk ▸ attrsKey_mkSentinel c⟩
        rw [← Option.some.inj h]
        exact List.getElem?_concat_length σ.instances (mkSentinel c)
      · rw [if_neg hk] at h
        obtain ⟨s, hs, hkey⟩ := hσ.1 k id h
        refine ⟨s, ?_, hkey⟩
        have hlt : id < σ.instances.length := (List.getElem?_eq_some.mp hs).1
        rw [List.getElem?_append, if_pos hlt]
        exact hs
    · intro id s h
      rcases Nat.lt_trichotomy id σ.instances.length with hlt | heq | hgt
      · rw [List.getElem?_append, if_pos hlt] at h
        have hold := hσ.2 id s h
        simp only [dictGet_cons]
        rw [if_neg]
        · exact hold
        · intro hk
          rw [hk] at hold
          rw [hold] at hreg
          cases hreg
      · subst heq
        have hs : s = mkSentinel c := by
          have h2 : (σ.instances ++ [mkSentinel c])[σ.instances.length]? = some s := h
          rw [List.getElem?_concat_length] at h2
          exact (Option.some.inj h2).symm
        subst hs
        simp [attrsKey_mkSentinel]
      · exfalso
        have hlen : (σ.instances ++ [mkSentinel c]).length ≤ id := by
          simp only [List.length_append, List.length_singleton]
          omega
        rw [List.getElem?_eq_none hlen] at h
        cases h

theorem lookup_new_mono {σ : ProcState} {k : String} {v : Nat} (c : Call)
    (h : dictGet σ.registry k = some v) :
    dictGet (Sentinel.new σ c).1.registry k = some v := by
  cases hreg : dictGet σ.registry (callKey c) with
  | some id => rw [Sentinel.new_hit hreg]; exact h
  | none =>
    rw [Sentinel.new_miss hreg]
    simp only [dictGet_cons]
    rw [if_neg]
    · exact h
    · intro hk
      rw [hk] at h
      rw [h] at hreg
      cases hreg

@[simp] theorem runCalls_nil (σ : ProcState) : runCalls σ [] = σ := rfl

theorem runCalls_cons (σ : ProcState) (c : Call) (cs : List Call) :
    runCalls σ (c :: cs) = runCalls (Sentinel.new σ c).1 cs := rfl

theorem lookup_runCalls_mono {σ : ProcState} {k : String} {v : Nat} (cs : List Call)
    (h : dictGet σ.registry k = some v) :
    dictGet (runCalls σ cs).registry k = some v := by
  induction cs generalizing σ with
  | nil => exact h
  | cons c cs ih =>
    rw [runCalls_cons]
    exact ih (lookup_new_mono c h)

theorem regInv_runCalls {σ : ProcState} (hσ : RegInv σ) (cs : List Call) :
    RegInv (runCalls σ cs) := by
  induction cs generalizing σ with
  | nil => exact hσ
  | cons c cs ih =>
    rw [runCalls_cons]
    exact ih (regInv_new hσ c)

/-- After any factory call, the key of the call is registered and maps to the
returned identity (whether the call hit or missed). -/
theorem new_lookup_self (σ : ProcState) (c : Call) :
    dictGet (Sentinel.new σ c).1.registry (callKey c) = some (Sentinel.new σ c).2 := by
  cases hreg : dictGet σ.registry (callKey c) with
  | some id => rw [Sentinel.new_hit hreg]; exact hreg
  | none =>
    rw [Sentinel.new_miss hreg]
    simp

theorem regInv_inj {σ : ProcState} (hσ : RegInv σ) {k1 k2 : String} {id : Nat}
    (h1 : dictGet σ.registry k1 = some id) (h2 : dictGet σ.registry k2 = some id) :
    k1 = k2 := by
  obtain ⟨s1, hs1, hk1⟩ := hσ.1 k1 id h1
  obtain ⟨s2, hs2, hk2⟩ := hσ.1 k2 id h2
  rw [hs1] at hs2
  rw [← hk1, ← hk2, Option.some.inj hs2]

theorem regInv_lt {σ : ProcState} (hσ : RegInv σ) {k : String} {id : Nat}
    (h : dictGet σ.registry k = some id) : id < σ.instances.length := by
  obtain ⟨s, hs, _⟩ := hσ.1 k id h
  exact (List.getElem?_eq_some.mp hs).1


theorem cstep_entry_mono {s s2 : CState} {v : Nat} (h : CStep s s2)
    (hv : s.entry = some v) : s2.entry = some v := by
  cases h with
  | fastHit i w h1 h2 => exact hv
  | fastMiss i h1 h2 => rw [hv] at h2; cases h2
  | lockHit i c w h1 h2 => exact hv
  | lockMiss i c h1 h2 => rw [hv] at h2; cases h2

theorem doneOK_step {s s2 : CState} (h : CStep s s2) (hd : doneOK s) : doneOK s2 := by
  cases h with
  | fastHit i v h1 h2 =>
    intro j r hj
    rw [List.getElem?_set] at hj
    by_cases hij : i = j
    · rw [if_pos hij] at hj
      by_cases hlen : i < s.threads.length
      · rw [if_pos hlen] at hj
        have hvr : v = r := by simpa using hj
        rw [← hvr]
        exact h2
      · rw [if_neg hlen] at hj
        cases hj
    · rw [if_neg hij] at hj
      exact hd j r hj
  | fastMiss i h1 h2 =>
    intro j r hj
    rw [List.getElem?_set] at hj
    by_cases hij : i = j
    · rw [if_pos hij] at hj
      by_cases hlen : i < s.threads.length
      · rw [if_pos hlen] at hj
        simp at hj
      · rw [if_neg hlen] at hj
        cases hj
    · rw [if_neg hij] at hj
      exfalso
      have hold := hd j r hj
      rw [hold] at h2
      cases h2
  | lockHit i c v h1 h2 =>
    intro j r hj
    rw [List.getElem?_set] at hj
    by_cases hij : i = j
    · rw [if_pos hij] at hj
      by_cases hlen : i < s.threads.length
      · rw [if_pos hlen] at hj
        have hvr : v = r := by simpa using hj
        rw [← hvr]
        exact h2
      · rw [if_neg hlen] at hj
        cases hj
    · rw [if_neg hij] at hj
      exact hd j r hj
  | lockMiss i c h1 h2 =>
    intro j r hj
    rw [List.getElem?_set] at hj
    by_cases hij : i = j
    · rw [if_pos hij] at hj
      by_cases hlen : i < s.threads.length
      · rw [if_pos hlen] at hj
        have hcr : c = r := by simpa using hj
        rw [← hcr]
      · rw [if_neg hlen] at hj
        cases hj
    · rw [if_neg hij] at hj
      exfalso
      have hold := hd j r hj
      rw [hold] at h2
      cases h2

theorem doneOK_reach {n : Nat} {s : CState} (h : CReach n s) : doneOK s := by
  unfold CReach at h
  induction h with
  | refl =>
    intro i r hi
    simp only [initCState] at hi
    rw [List.getElem?_replicate] at hi
    by_cases hin : i < n
    · rw [if_pos hin] at hi
      cases hi
    · rw [if_neg hin] at hi
      cases hi
  | tail h12 hstep ih => exact doneOK_step hstep ih

/-!
The claims.
-/

/-- C1 (amended): two factory calls return the identical instance if and
only if their registry key strings — the hyphen-joined concatenation of
the kind module, the kind qualified name, the resolved namespace and the
coerced name — are equal.  Agreement on all three key components still
implies the identical instance, but the converse direction of the
original claim fails because the joined string is not injective in its
components (see `spec_c1_counterexample`).  Stated for a first call `A`
made in any reachable state and a second call `B` made after any further
calls `mid`. -/
theorem spec_c1_amended (cs mid : List Call) (A B : Call) :
    (Sentinel.new (runCalls (Sentinel.new (runCalls initState cs) A).1 mid) B).2
      = (Sentinel.new (runCalls initState cs) A).2
    ↔ callKey B = callKey A := by
  have hinv : RegInv (runCalls initState cs) := regInv_runCalls regInv_init cs
  have hinv2 : RegInv (runCalls (Sentinel.new (runCalls initState cs) A).1 mid) :=
    regInv_runCalls (regInv_new hinv A) mid
  have hA : dictGet (runCalls (Sentinel.new (runCalls initState cs) A).1 mid).registry
      (callKey A) = some (Sentinel.new (runCalls initState cs) A).2 :=
    lookup_runCalls_mono mid (new_lookup_self (runCalls initState cs) A)
  constructor
  · intro hid
    have hB := new_lookup_self (runCalls (Sentinel.new (runCalls initState cs) A).1 mid) B
    rw [hid] at hB
    have hA2 := lookup_new_mono B hA
    exact regInv_inj (regInv_new hinv2 B) hB hA2
  · intro hkey
    have hhit : dictGet (runCalls (Sentinel.new (runCalls initState cs) A).1 mid).registry
        (callKey B) = some (Sentinel.new (runCalls initState cs) A).2 := by
      rw [hkey]
      exact hA
    rw [Sentinel.new_hit hhit]

/-- C1 (counterexample to the original claim): the calls `c1a`
(name `"B-C"`, namespace `"A"`) and `c1b` (name `"C"`, namespace `"A-B"`)
are made on the same kind but disagree on both the namespace and the
name, yet the second call returns the very instance created by the first,
because both calls produce the registry key string
`"sentinels-Sentinel-A-B-C"`. -/
theorem spec_c1_counterexample :
    (Sentinel.new (Sentinel.new initState c1a).1 c1b).2 = (Sentinel.new initState c1a).2
    ∧ resolveModuleName c1b.module_name c1b.env ≠ resolveModuleName c1a.module_name c1a.env
    ∧ strOf c1b.name ≠ strOf c1a.name
    ∧ c1b.cls = c1a.cls
    ∧ callKey c1a = "sentinels-Sentinel-A-B-C"
    ∧ callKey c1b = "sentinels-Sentinel-A-B-C" := by
  refine ⟨?_, ?_, ?_, ?_, ?_, ?_⟩ <;> decide

/-- C4: a factory call whose key is already registered returns the
registered identity and leaves the whole process state — every stored
instance with all its attributes, and the registry — completely
unchanged, whatever display or truthiness the call supplies. -/
theorem spec_c4 (σ : ProcState) (c : Call) (id : Nat)
    (h : dictGet σ.registry (callKey c) = some id) :
    Sentinel.new σ c = (σ, id) :=
  Sentinel.new_hit h

/-- C4 witness: after creating `m`/`X` with no display and no truthiness,
a second call for the same key supplying display `"other"` and truthiness
`False` returns the original identity `0` and changes nothing. -/
theorem spec_c4_witness :
    Sentinel.new (Sentinel.new initState c4base).1 c4hit
      = ((Sentinel.new initState c4base).1, 0) :=
  spec_c4 (Sentinel.new initState c4base).1 c4hit 0 (by decide)

/-- C9: the factory uses only the string form of the name argument: the
registry key is computed from it, so a second call agreeing on the kind,
the resolved namespace and the string form of the name — even if the name
arguments differ as values — returns the identical instance and leaves
the state unchanged; and on a creating call the stored name attribute is
exactly the string form of the name argument. -/
theorem spec_c9 (σ : ProcState) (c c2 : Call)
    (hcls : c2.cls = c.cls)
    (hmod : resolveModuleName c2.module_name c2.env = resolveModuleName c.module_name c.env)
    (hname : strOf c2.name = strOf c.name) :
    (Sentinel.new (Sentinel.new σ c).1 c2).2 = (Sentinel.new σ c).2
    ∧ (Sentinel.new (Sentinel.new σ c).1 c2).1 = (Sentinel.new σ c).1
    ∧ (dictGet σ.registry (callKey c) = Option.none →
        ((Sentinel.new σ c).1.instances.getLastD dummySentinel)._name = strOf c.name) := by
  have hkey : callKey c2 = callKey c := by
    unfold callKey
    rw [hcls, hmod, hname]
  have hhit : dictGet (Sentinel.new σ c).1.registry (callKey c2)
      = some (Sentinel.new σ c).2 := by
    rw [hkey]
    exact new_lookup_self σ c
  rw [Sentinel.new_hit hhit]
  refine ⟨rfl, rfl, fun hmiss => ?_⟩
  rw [Sentinel.new_miss hmiss]
  simp [List.getLastD_concat, mkSentinel]

/-- C9 witness: `Sentinel(1)` and `Sentinel("1")` (same kind, same
namespace) return the identical instance, because `str(1) = "1"`. -/
theorem spec_c9_witness :
    (Sentinel.new (Sentinel.new initState c9int).1 c9str).2
      = (Sentinel.new initState c9int).2 :=
  (spec_c9 initState c9int c9str (by decide) (by decide) (by decide)).1

/-- C10: passing the empty string for the display or for the namespace is
treated exactly as omitting the parameter: the factory call returns the
same state and the same instance in both spellings. -/
theorem spec_c10 (σ : ProcState) (cls : Kind) (n : NameArg) (r m : Option String)
    (t : Option Bool) (env : Env) :
    Sentinel.new σ ⟨cls, n, some "", m, t, env⟩
      = Sentinel.new σ ⟨cls, n, Option.none, m, t, env⟩
    ∧ Sentinel.new σ ⟨cls, n, r, some "", t, env⟩
      = Sentinel.new σ ⟨cls, n, r, Option.none, t, env⟩ :=
  ⟨rfl, rfl⟩

/-- C2 (amended): for every stored sentinel whose stored namespace string
is non-empty, re-invoking the reconstruction recipe of `__reduce__` — a
factory call with the stored name, display and namespace, truthiness
deliberately omitted — returns the identical pre-existing instance and
leaves the state (hence also the stored truthiness) unchanged, in any
stack context.  The non-emptiness hypothesis is forced by
`spec_c2_counterexample`: an empty stored namespace is falsy, so the
replayed call re-runs namespace inference instead of using it. -/
theorem spec_c2_amended (cs : List Call) (id : Nat) (s : Sentinel) (env : Env)
    (hs : (runCalls initState cs).instances[id]? = some s)
    (hm : s._module_name ≠ "") :
    Sentinel.new (runCalls initState cs) (Sentinel.reduce s env)
      = (runCalls initState cs, id) := by
  have hinv : RegInv (runCalls initState cs) := regInv_runCalls regInv_init cs
  have hreg := hinv.2 id s hs
  have hkey : callKey (Sentinel.reduce s env) = attrsKey s := by
    simp [callKey, attrsKey, Sentinel.reduce, resolveModuleName, strOf, hm]
  apply Sentinel.new_hit
  rw [hkey]
  exact hreg

/-- C2 witness: the sentinel created by `c2plain` (namespace `"m"`) is
resolved back to itself by its reconstruction recipe. -/
theorem spec_c2_witness :
    Sentinel.new (runCalls initState [c2plain])
        (Sentinel.reduce (mkSentinel c2plain) trivialEnv)
      = (runCalls initState [c2plain], 0) :=
  spec_c2_amended [c2plain] 0 (mkSentinel c2plain) trivialEnv (by decide) (by decide)

/-- C2 (counterexample to the original claim): a sentinel created where
the calling frame has the empty string as `__name__` stores the empty
namespace; replaying its reconstruction recipe in a different stack
context (such as inside the unpickling machinery) re-infers a different
namespace and builds a second, distinct instance instead of returning the
original. -/
theorem spec_c2_counterexample :
    (Sentinel.new initState c2orig).2 = 0
    ∧ (Sentinel.new initState c2orig).1.instances[0]? = some (mkSentinel c2orig)
    ∧ (mkSentinel c2orig)._module_name = ""
    ∧ (Sentinel.new (Sentinel.new initState c2orig).1
        (Sentinel.reduce (mkSentinel c2orig) envModName)).2 ≠ 0
    ∧ (Sentinel.new (Sentinel.new initState c2orig).1
        (Sentinel.reduce (mkSentinel c2orig) envModName)).1.instances.length = 2 := by
  refine ⟨?_, ?_, ?_, ?_, ?_⟩ <;> decide

/-- C3: the sentinel stored by a creating call keeps the supplied
truthiness and name; boolean evaluation returns the stored truthiness
when it was set (`True` gives true, `False` gives false) and otherwise
raises an error whose message names the sentinel — it never defaults. -/
theorem spec_c3 (σ : ProcState) (c : Call)
    (hmiss : dictGet σ.registry (callKey c) = Option.none) :
    ((Sentinel.new σ c).1.instances.getLastD dummySentinel)._truthy = c.truthy
    ∧ ((Sentinel.new σ c).1.instances.getLastD dummySentinel)._name = strOf c.name
    ∧ (∀ b : Bool, c.truthy = some b →
        Sentinel.bool ((Sentinel.new σ c).1.instances.getLastD dummySentinel)
          = Except.ok b)
    ∧ (c.truthy = Option.none →
        Sentinel.bool ((Sentinel.new σ c).1.instances.getLastD dummySentinel)
          = Except.error (strOf c.name ++ " is ambiguous.")) := by
  rw [Sentinel.new_miss hmiss]
  simp only [List.getLastD_concat]
  refine ⟨rfl, rfl, ?_, ?_⟩
  · intro b hb
    simp [Sentinel.bool, mkSentinel, hb]
  · intro hb
    simp [Sentinel.bool, mkSentinel, hb]

/-- C3 witness: the sentinel created by `c3call` with truthiness `True`
evaluates to true. -/
theorem spec_c3_witness :
    Sentinel.bool ((Sentinel.new initState c3call).1.instances.getLastD dummySentinel)
      = Except.ok true :=
  (spec_c3 initState c3call (by decide)).2.2.1 true (by decide)

/-- C5: sentinel equality is identity-based — a sentinel equals a value
exactly when that value is the very same sentinel object, so it is never
equal to `None`, to any string (in particular not to its own name or
display string), nor to any other sentinel — and the sentinel hash is
consistent with this equality. -/
theorem spec_c5 (i : Nat) (v : PyValue) :
    (pyEq (PyValue.sentinel i) v = true ↔ v = PyValue.sentinel i)
    ∧ (pyEq (PyValue.sentinel i) v = true → pyHash (PyValue.sentinel i) = pyHash v) := by
  have hiff : pyEq (PyValue.sentinel i) v = true ↔ v = PyValue.sentinel i := by
    cases v with
    | none => simp [pyEq]
    | ellipsis => simp [pyEq]
    | str s => simp [pyEq]
    | int n => simp [pyEq]
    | sentinel j =>
      show (i == j) = true ↔ PyValue.sentinel j = PyValue.sentinel i
      rw [beq_iff_eq]
      constructor
      · intro h
        rw [h]
      · intro h
        cases h
        rfl
  refine ⟨hiff, fun h => ?_⟩
  rw [hiff.mp h]

/-- C5 witness: sentinel `0` is unequal to `None` and to the string
`"sent1"`, and its hash agrees with itself. -/
theorem spec_c5_witness :
    pyEq (PyValue.sentinel 0) PyValue.none = false
    ∧ pyEq (PyValue.sentinel 0) (PyValue.str "sent1") = false
    ∧ pyHash (PyValue.sentinel 0) = pyHash (PyValue.sentinel 0) :=
  ⟨by decide, by decide, (spec_c5 0 (PyValue.sentinel 0)).2 (by decide)⟩

/-- C6 (amended): on a creating call, an omitted — or empty, see
`spec_c6_counterexample` — display is stored as `"<"` + last dotted
segment of the name + `">"`, and a supplied non-empty display is stored
exactly; `__repr__` always returns the stored display string. -/
theorem spec_c6_amended (σ : ProcState) (c : Call)
    (hmiss : dictGet σ.registry (callKey c) = Option.none) :
    ((c.repr = Option.none ∨ c.repr = some "") →
      ((Sentinel.new σ c).1.instances.getLastD dummySentinel)._repr
        = "<" ++ lastSegment (strOf c.name) ++ ">")
    ∧ (∀ s : String, c.repr = some s → s ≠ "" →
        ((Sentinel.new σ c).1.instances.getLastD dummySentinel)._repr = s)
    ∧ (∀ t : Sentinel, Sentinel.repr t = t._repr) := by
  rw [Sentinel.new_miss hmiss]
  simp only [List.getLastD_concat]
  refine ⟨?_, ?_, fun t => rfl⟩
  · intro h
    cases h with
    | inl h => simp [mkSentinel, resolveRepr, h]
    | inr h => simp [mkSentinel, resolveRepr, h]
  · intro s hs hne
    simp [mkSentinel, resolveRepr, hs, hne]

/-- C6 (counterexample to the original claim): supplying the empty string
as the display does not make the representation the supplied string — the
stored display of the sentinel created by `c6empty` is the derived
`"<C>"`, not `""`. -/
theorem spec_c6_counterexample :
    c6empty.repr = some ""
    ∧ ((Sentinel.new initState c6empty).1.instances.getLastD dummySentinel)._repr ≠ ""
    ∧ Sentinel.repr ((Sentinel.new initState c6empty).1.instances.getLastD dummySentinel)
        = "<C>" := by
  refine ⟨?_, ?_, ?_⟩ <;> decide

/-- C6 witness: `Sentinel("sent1")` with the display omitted stores the
display `"<sent1>"`. -/
theorem spec_c6_witness :
    ((Sentinel.new initState c6plain).1.instances.getLastD dummySentinel)._repr
      = "<sent1>" := by
  have h := (spec_c6_amended initState c6plain (by decide)).1 (Or.inl rfl)
  exact h.trans (by decide)

/-- C7: in every interleaving of any number of threads concurrently
calling the factory with the same key, all finished threads hold the
identical instance, and once the registry entry for the key is set it
never changes — no duplicate instance for the key is ever observable. -/
theorem spec_c7 (n : Nat) (s : CState) (h : CReach n s) :
    (∀ (i j ri rj : Nat), s.threads[i]? = some (TState.done ri) →
      s.threads[j]? = some (TState.done rj) → ri = rj)
    ∧ (∀ (s2 : CState) (v : Nat), s.entry = some v →
        Relation.ReflTransGen CStep s s2 → s2.entry = some v) := by
  have hd : doneOK s := doneOK_reach h
  constructor
  · intro i j ri rj hi hj
    have h1 := hd i ri hi
    have h2 := hd j rj hj
    rw [h1] at h2
    exact Option.some.inj h2
  · intro s2 v hv h2
    induction h2 with
    | refl => exact hv
    | tail hab hstep ih => exact cstep_entry_mono hstep ih

/-- C7 witness: a concrete two-thread interleaving — thread 0 misses on
the fast path, wins the locked insert, thread 1 then hits — ends with
both threads holding identity `0`. -/
theorem spec_c7_witness :
    cfinal.threads = [TState.done 0, TState.done 0] ∧ (0 : Nat) = 0 := by
  have hchain : CReach 2 cfinal := by
    apply Relation.ReflTransGen.head
      (CStep.fastMiss (initCState 2) 0 (by decide) rfl)
    apply Relation.ReflTransGen.head
      (CStep.lockMiss ⟨Option.none, 1, [TState.ready 0, TState.start]⟩ 0 0 (by decide) rfl)
    exact Relation.ReflTransGen.single
      (CStep.fastHit ⟨some 0, 1, [TState.done 0, TState.start]⟩ 1 0 (by decide) rfl)
  exact ⟨rfl, (spec_c7 2 cfinal hchain).1 0 1 0 0 (by decide) (by decide)⟩

/-- C8: a factory call with no explicit namespace always succeeds — the
returned identity denotes a stored instance — and the namespace it uses
is the `__name__` global of the frame `sys._getframe(2)` (the frame of
whoever invoked the factory) when introspection works, with `"__main__"`
as the default for a missing `__name__`, and the fixed module identifier
`"sentinels"` when introspection is unavailable. -/
theorem spec_c8 (cs : List Call) (c : Call) (h : c.module_name = Option.none) :
    ((Sentinel.new (runCalls initState cs) c).2
        < (Sentinel.new (runCalls initState cs) c).1.instances.length)
    ∧ (getParentFrame c.env = Option.none →
        resolveModuleName c.module_name c.env = "sentinels")
    ∧ (∀ f : Frame, c.env.getframe 2 = some f →
        resolveModuleName c.module_name c.env
          = (dictGet f.f_globals "__name__").getD "__main__") := by
  refine ⟨?_, ?_, ?_⟩
  · have hinv : RegInv (runCalls initState cs) := regInv_runCalls regInv_init cs
    cases hreg : dictGet (runCalls initState cs).registry (callKey c) with
    | some id =>
      rw [Sentinel.new_hit hreg]
      exact regInv_lt hinv hreg
    | none =>
      rw [Sentinel.new_miss hreg]
      simp
  · intro hnone
    rw [h]
    simp [resolveModuleName, inferredModuleName, hnone]
  · intro f hf
    rw [h]
    simp [resolveModuleName, inferredModuleName, getParentFrame, hf]

/-- C8 witness: with stack introspection unavailable and no explicit
namespace, the resolved namespace is the fixed default `"sentinels"`. -/
theorem spec_c8_witness :
    resolveModuleName c8call.module_name c8call.env = "sentinels" :=
  (spec_c8 [] c8call rfl).2.1 rfl
